import Mathlib

/-!
# TownKart delivery system — order lifecycle and inventory embedding

A shallow embedding of the order-lifecycle code of the TownKart repository:
the order controller (`createOrder`, `updateOrderStatus`, `cancelOrder`,
`rateOrder` in `backend/controllers/orders.js`), the relevant parts of the
`Product`, `Order` and `Shop` mongoose models, and the order-number
generating pre-save hook.  Documents are Lean structures holding the fields
the code reads or writes; a mongo collection is a `List` of documents;
`findById` is `List.find?` on the id field and a mongoose `save` of an
existing document replaces the entry with the same id.  JS numbers are
modelled as `Rat` where arithmetic matters (prices, totals, shop ratings)
and as `Nat` for identifiers, quantities and stock (the schemas declare
`min: 0` for stock and `min: 1` for quantities).

The `Order` documents follow the staged `orderSchema` (`models/Order.js`):
its paths are `orderNumber`, `customer`, `shop`, `items`, `subtotal`,
`deliveryCharge`, `tax`, `discount`, `total`, `status`, `paymentMethod`,
`paymentStatus`, `deliveryType`, delivery/notes/cancellation strings,
`rating`, `review`, `isRated`, `actualDeliveryTime`.  The orders controller
however reads and writes `user`, `statusHistory`, `deliveryFee` and
`ratedAt`, none of which are schema paths.  Three mongoose behaviours
therefore decide the control flow and are modelled explicitly:

* strict mode (the default) silently drops keys that are not schema paths
  on `create` and on assignment, and reading such a path yields
  `undefined`;
* validation runs as the first `pre('save')` hook, before user-defined
  `pre('save')` hooks, so a required path filled only by a user hook
  (here: `orderNumber`) is still missing when the document is validated;
* reading a member of `undefined` (e.g. `order.user.toString()`,
  `order.statusHistory.push`) throws a `TypeError`, which `asyncHandler`
  forwards to the error middleware as a 500 — the handler stops there and
  nothing is saved.
-/

deriving instance DecidableEq for Except

namespace TownKart

/-- `ErrorResponse(message, statusCode)` from `utils/errorResponse.js`:
every `next(new ErrorResponse(...))` of the controllers produces one of
these. -/
structure ErrorResponse where
  message : String
  statusCode : Nat
deriving DecidableEq

/-- A product document (`backend/models/Product.js`), restricted to the
fields the order lifecycle reads or writes: id, owning shop, name (used in
error messages), unit price, stock, active flag and the derived
availability flag. -/
structure Product where
  pid : Nat
  shop : Nat
  name : String
  price : Rat
  stock : Nat
  isActive : Bool
  isAvailable : Bool
deriving DecidableEq

/-- The `productSchema.pre('save')` hook: on every save,
`this.isAvailable = this.stock > 0`. -/
def saveProduct (p : Product) : Product :=
  { p with isAvailable := decide (0 < p.stock) }

/-- `Product.findById` over the collection. -/
def findProduct (ps : List Product) (pid : Nat) : Option Product :=
  ps.find? (fun p => p.pid == pid)

/-- Persisting an existing product document: the entry with the same id is
replaced. -/
def storeProduct (ps : List Product) (p : Product) : List Product :=
  ps.map (fun q => if q.pid == p.pid then p else q)

/-- The stock recorded for product `pid`, when the product exists. -/
def stockAt (ps : List Product) (pid : Nat) : Option Nat :=
  (findProduct ps pid).map (fun p => p.stock)

/-- One requested line item of a `POST /api/orders` body:
`{ product: <id>, quantity }`. -/
structure ReqItem where
  product : Nat
  quantity : Nat
deriving DecidableEq

/-- An embedded order line item (`orderItemSchema`):
`{ product, quantity, price, total }`. -/
structure OrderItem where
  product : Nat
  quantity : Nat
  price : Rat
  total : Rat
deriving DecidableEq

/-- An order document as the staged `orderSchema` stores it, restricted to
the paths this workflow touches.  A document in the collection has passed
validation, so the required paths (`orderNumber`, `customer`, `shop`,
`subtotal`, `total`, `deliveryType`) are plain fields here.  The schema
has NO `user`, `statusHistory`, `deliveryFee` or `ratedAt` paths — reading
those on a document yields `undefined`. -/
structure Order where
  oid : Nat
  orderNumber : String
  customer : Nat
  shop : Nat
  items : List OrderItem
  subtotal : Rat
  deliveryCharge : Rat
  total : Rat
  status : String
  deliveryType : String
  rating : Option Nat
  review : Option String
  isRated : Bool
  actualDeliveryTime : Option Nat
deriving DecidableEq

/-- `Order.findById` over the collection. -/
def findOrder (os : List Order) (oid : Nat) : Option Order :=
  os.find? (fun o => o.oid == oid)

/-- A shop document, restricted to the rating aggregate the rating paths
mutate. -/
structure Shop where
  sid : Nat
  rating : Rat
  totalRatings : Nat
deriving DecidableEq

/-- `Shop.findById` over the collection. -/
def findShop (ss : List Shop) (sid : Nat) : Option Shop :=
  ss.find? (fun s => s.sid == sid)

/-- Persisting an existing shop document. -/
def storeShop (ss : List Shop) (s : Shop) : List Shop :=
  ss.map (fun q => if q.sid == s.sid then s else q)

/-- The persistent state the order lifecycle touches: the product, order
and shop collections. -/
structure DB where
  products : List Product
  orders : List Order
  shops : List Shop
deriving DecidableEq

/-- The authenticated actor of a request: `req.user.id` and
`req.user.shop` (for shop owners). -/
structure Actor where
  id : Nat
  shop : Nat
deriving DecidableEq

/-- The body of `POST /api/orders`, restricted to `items`; `none` models a
missing/falsy `items` field. -/
structure CreateReq where
  items : Option (List ReqItem)
deriving DecidableEq

/-- How a handler run ends: a success response, an
`next(new ErrorResponse(...))`, or an uncaught throw (`TypeError`,
mongoose `ValidationError`) that `asyncHandler` turns into a 500. -/
inductive Outcome where
  | success (o : Order)
  | apiError (e : ErrorResponse)
  | thrown (msg : String)
deriving DecidableEq

/-- Whether an outcome is a success response. -/
def isSuccess : Outcome → Bool
  | Outcome.success _ => true
  | Outcome.apiError _ => false
  | Outcome.thrown _ => false

/-- `order.user.toString()` where `user` is not a schema path. -/
def undefinedToStringMsg : String :=
  "TypeError: Cannot read properties of undefined (reading 'toString')"

/-- `order.statusHistory.push(...)` where `statusHistory` is not a schema
path. -/
def undefinedPushMsg : String :=
  "TypeError: Cannot read properties of undefined (reading 'push')"

/-- The per-item reservation step of `createOrder`
(`controllers/orders.js` lines 89–105): look the product up, fail 404 if
absent, 400 if inactive, 400 if `stock < quantity`; otherwise decrement
stock, save (which re-derives `isAvailable`), and hand back the
pre-reservation unit price. -/
def reserve (ps : List Product) (pid q : Nat) :
    Except ErrorResponse (Rat × List Product) :=
  match findProduct ps pid with
  | none => Except.error ⟨s!"Product {pid} not found", 404⟩
  | some product =>
    if product.isActive = false then
      let n := product.name
      Except.error ⟨s!"Product {n} is not available", 400⟩
    else if product.stock < q then
      let n := product.name
      Except.error ⟨s!"Insufficient stock for {n}", 400⟩
    else
      let product2 := saveProduct { product with stock := product.stock - q }
      Except.ok (product.price, storeProduct ps product2)

/-- The `for (const item of items)` loop of `createOrder`: reserve each
item in order, accumulating the order items and the running `total`
(subtotal before the delivery fee).  The returned product collection
reflects every save performed so far — on a mid-loop failure the loop
returns the error *with the earlier decrements still applied* (the source
has no rollback). -/
def itemLoop (ps : List Product) :
    List ReqItem → Except ErrorResponse (List OrderItem × Rat) × List Product
  | [] => (Except.ok ([], 0), ps)
  | item :: rest =>
    match reserve ps item.product item.quantity with
    | Except.error e => (Except.error e, ps)
    | Except.ok (price, ps2) =>
      let oi : OrderItem :=
        { product := item.product, quantity := item.quantity,
          price := price, total := price * item.quantity }
      match itemLoop ps2 rest with
      | (Except.ok (ois, t), ps3) => (Except.ok (oi :: ois, price * item.quantity + t), ps3)
      | (Except.error e, ps3) => (Except.error e, ps3)

/-- The argument object the controller passes to `Order.create`
(`controllers/orders.js` lines 122–131): `user`, `items`, `total`,
`deliveryFee` and `shop`.

The `shop` field: the source passes `orderItems[0].product.shop`, but
`orderItems[i].product` is `item.product` — the raw product id from the
request body, not the fetched product document — so accessing `.shop` on
it yields `undefined`, modelled as `none`. -/
structure CreatePayload where
  user : Nat
  items : List OrderItem
  total : Rat
  deliveryFee : Rat
  shop : Option Nat
deriving DecidableEq

/-- Building the `Order.create` argument from the loop results
(`controllers/orders.js` lines 117–131): `deliveryFee = total > 500 ? 0 :
50`, `total += deliveryFee`, `shop = orderItems[0].product.shop` (which is
`undefined`, see `CreatePayload`). -/
def buildCreatePayload (userId : Nat) (orderItems : List OrderItem)
    (subtotal : Rat) : CreatePayload :=
  let deliveryFee : Rat := if subtotal > 500 then 0 else 50
  { user := userId, items := orderItems, total := subtotal + deliveryFee,
    deliveryFee := deliveryFee, shop := none }

/-- The candidate document mongoose builds from the payload under the
staged `orderSchema`'s strict mode, at validation time: each required path
is present or absent.  `user` and `deliveryFee` are not schema paths and
are dropped; `customer`, `subtotal` and `deliveryType` are never supplied
by this controller; `orderNumber` is only generated in the user
`pre('save')` hook, which runs after validation, so it is absent when the
document is validated. -/
structure OrderCandidate where
  orderNumber : Option String
  customer : Option Nat
  shop : Option Nat
  items : List OrderItem
  subtotal : Option Rat
  total : Option Rat
  deliveryType : Option String
deriving DecidableEq

/-- The candidate document for a `createOrder` payload (see
`OrderCandidate` for why each absent field is absent). -/
def candidateOfPayload (p : CreatePayload) : OrderCandidate :=
  { orderNumber := none
    customer := none
    shop := p.shop
    items := p.items
    subtotal := none
    total := some p.total
    deliveryType := none }

/-- The staged `orderSchema`'s required-path validation: `orderNumber`,
`customer`, `shop`, `subtotal`, `total` and `deliveryType` are declared
`required`. -/
def validateRequired (c : OrderCandidate) : Bool :=
  c.orderNumber.isSome && c.customer.isSome && c.shop.isSome &&
    c.subtotal.isSome && c.total.isSome && c.deliveryType.isSome

/-- `Order.create` under the staged `orderSchema`: validate the candidate
document; on failure throw `ValidationError`.  The success branch builds
the document from the candidate (defaults are placeholders — the branch is
unreachable for this controller's payloads, whose candidates never carry
`customer`). -/
def orderCreate (oid : Nat) (p : CreatePayload) : Except String Order :=
  let c := candidateOfPayload p
  if validateRequired c then
    Except.ok
      { oid := oid
        orderNumber := c.orderNumber.getD ""
        customer := c.customer.getD 0
        shop := c.shop.getD 0
        items := c.items
        subtotal := c.subtotal.getD 0
        deliveryCharge := 0
        total := c.total.getD 0
        status := "pending"
        deliveryType := c.deliveryType.getD ""
        rating := none
        review := none
        isRated := false
        actualDeliveryTime := none }
  else Except.error "ValidationError"

/-- `createOrder` (`controllers/orders.js` lines 77–151).  Reject a
missing or empty `items` list, run the reservation loop (whose product
saves persist), compute the delivery fee and total, then call
`Order.create` with the controller's payload.  The create always throws
`ValidationError` (see `OrderCandidate`), surfacing as a 500 — but the
loop's stock decrements are already durable. -/
def createOrder (db : DB) (userId : Nat) (req : CreateReq) : Outcome × DB :=
  match req.items with
  | none => (Outcome.apiError ⟨"Please add items to your order", 400⟩, db)
  | some items =>
    if items.length = 0 then
      (Outcome.apiError ⟨"Please add items to your order", 400⟩, db)
    else
      match itemLoop db.products items with
      | (Except.error e, ps2) => (Outcome.apiError e, { db with products := ps2 })
      | (Except.ok (orderItems, subtotal), ps2) =>
        match orderCreate db.orders.length (buildCreatePayload userId orderItems subtotal) with
        | Except.error msg => (Outcome.thrown msg, { db with products := ps2 })
        | Except.ok order =>
          (Outcome.success order,
            { db with products := ps2, orders := db.orders ++ [order] })

/-- `updateOrderStatus` (`controllers/orders.js` lines 156–196): 404 if
the order is absent, 401 if the acting shop is not the order's shop
(`order.shop` is a real schema path, so this guard runs).  Past the guard
the handler assigns `order.status` (in memory) and then evaluates
`order.statusHistory.push(...)` — `statusHistory` is not a path of the
staged `orderSchema`, so this throws a `TypeError` before `order.save()`:
nothing is persisted and `actualDeliveryTime` is never touched. -/
def updateOrderStatus (db : DB) (actor : Actor) (oid : Nat) (status : String) :
    Outcome × DB :=
  match findOrder db.orders oid with
  | none => (Outcome.apiError ⟨"Order not found", 404⟩, db)
  | some order =>
    if order.shop ≠ actor.shop then
      (Outcome.apiError ⟨"Not authorized to update this order", 401⟩, db)
    else
      (Outcome.thrown undefinedPushMsg, db)

/-- The `orderSchema.methods.updateStatus` instance method
(`models/Order.js` lines 402–414): sets the status and sets
`actualDeliveryTime` exactly when the new status is `delivered`.  No
controller in the repository calls it. -/
def orderUpdateStatus (o : Order) (newStatus : String) (now : Nat) : Order :=
  let o2 := { o with status := newStatus }
  if newStatus = "delivered" then { o2 with actualDeliveryTime := some now }
  else o2

/-- `cancelOrder` (`controllers/orders.js` lines 201–245): 404 if the
order is absent; then the ownership guard evaluates
`order.user.toString()` — `user` is not a path of the staged `orderSchema`
(the field is `customer`), so every existing order makes the handler throw
a `TypeError` before the cancellable check, the history push, the save and
the stock-restore loop.  No stock is ever released. -/
def cancelOrder (db : DB) (userId : Nat) (oid : Nat) : Outcome × DB :=
  match findOrder db.orders oid with
  | none => (Outcome.apiError ⟨"Order not found", 404⟩, db)
  | some _ => (Outcome.thrown undefinedToStringMsg, db)

/-- The stock-restoring loop of `cancelOrder` (`controllers/orders.js`
lines 228–234), transcribed for reference: for each line item, if the
product still exists, increment its stock by the item quantity and save
(missing products are silently skipped).  Unreachable in the program —
`cancelOrder` throws before it (see above). -/
def releaseItems (ps : List Product) : List OrderItem → List Product
  | [] => ps
  | item :: rest =>
    match findProduct ps item.product with
    | none => releaseItems ps rest
    | some product =>
      let product2 := saveProduct { product with stock := product.stock + item.quantity }
      releaseItems (storeProduct ps product2) rest

/-- `rateOrder` (`controllers/orders.js` lines 375–431): 400 unless the
rating is in 1..5 (real), 404 if the order is absent (real); then the
ownership guard evaluates `order.user.toString()` — `user` is not a schema
path — so every existing order makes the handler throw a `TypeError`.  The
delivered/already-rated guards, the rating persistence and the shop-rating
recompute below them are unreachable. -/
def rateOrder (db : DB) (userId : Nat) (oid : Nat) (rating : Nat)
    (review : String) : Outcome × DB :=
  if rating < 1 ∨ rating > 5 then
    (Outcome.apiError ⟨"Rating must be between 1 and 5", 400⟩, db)
  else
    match findOrder db.orders oid with
    | none => (Outcome.apiError ⟨"Order not found", 404⟩, db)
    | some _ => (Outcome.thrown undefinedToStringMsg, db)

/-- The rated orders of shop `sid`: the `Order.find({shop, rating:
{$exists: true}})` query of `rateOrder`'s recompute block. -/
def ratedOrdersOf (os : List Order) (sid : Nat) : List Order :=
  os.filter (fun o => o.shop == sid && o.rating.isSome)

/-- The arithmetic mean of the `rating` fields of a list of orders, as the
recompute block computes it: sum with `reduce`, divide by the length. -/
def meanOrderRating (os : List Order) : Rat :=
  (os.map (fun o => ((o.rating.getD 0 : Nat) : Rat))).sum / (os.length : Rat)

/-- The shop-rating recompute at the end of `rateOrder`
(`controllers/orders.js` lines 409–420), transcribed for reference:
`Shop.findById(order.shop)`; when the shop exists, scan every order of
that shop having a `rating` field, average their ratings, and save the
shop with that mean as its stored rating (a full recompute overwriting the
stored value).  Unreachable in the program — `rateOrder` throws before it
(see above). -/
def updateShopAfterRate (db : DB) (orders2 : List Order) (sid : Nat) : DB :=
  match findShop db.shops sid with
  | none => { db with orders := orders2 }
  | some shop =>
    let shopOrders := ratedOrdersOf orders2 sid
    let shop2 := { shop with rating := meanOrderRating shopOrders }
    { db with orders := orders2, shops := storeShop db.shops shop2 }

/-- `updateShopRating` (`controllers/shops.js` lines 327–353), the
explicit shop-rating path: a weighted incremental update
`(rating × totalRatings + new) / (totalRatings + 1)` — the strategy the
order-rating recompute block does NOT use. -/
def updateShopRating (ss : List Shop) (sid : Nat) (rating : Nat) :
    Except ErrorResponse Shop × List Shop :=
  if rating < 1 ∨ rating > 5 then
    (Except.error ⟨"Please provide a valid rating between 1 and 5", 400⟩, ss)
  else
    match findShop ss sid with
    | none => (Except.error ⟨s!"Shop not found with id of {sid}", 404⟩, ss)
    | some shop =>
      let newTotal := shop.totalRatings + 1
      let newRating := (shop.rating * (shop.totalRatings : Rat) + (rating : Rat)) / (newTotal : Rat)
      let shop2 := { shop with rating := newRating, totalRatings := newTotal }
      (Except.ok shop2, storeShop ss shop2)

/-- The character of a decimal digit. -/
def digitChar (n : Nat) : Char := Char.ofNat (48 + n)

/-- Fuel-indexed digit rendering (structural recursion on the fuel, so
that concrete values evaluate by `decide`/`rfl`); the fuel is always
sufficient in `decDigits` below. -/
def decDigitsAux : Nat → Nat → List Char
  | 0, _ => []
  | fuel + 1, n =>
    if n < 10 then [digitChar n]
    else decDigitsAux fuel (n / 10) ++ [digitChar (n % 10)]

/-- The decimal digits of a natural number, as JS `Number.toString()`
renders it. -/
def decDigits (n : Nat) : List Char := decDigitsAux (n + 1) n

/-- JS `String.prototype.padStart(len, c)`: pad on the left up to `len`
characters; a longer string is returned unchanged (never truncated). -/
def padChars (l : List Char) (len : Nat) (c : Char) : List Char :=
  if len ≤ l.length then l else List.replicate (len - l.length) c ++ l

/-- JS `String.prototype.slice(-2)`: the last two characters. -/
def sliceLast2 (l : List Char) : List Char := l.drop (l.length - 2)

/-- The `orderSchema.pre('save')` order-number hook (`models/Order.js`
lines 370–389), as a list of characters: `'ORD'` + last two digits of the
year + `padStart(month, 2)` + `padStart(day, 2)` + `padStart(count+1, 4)`,
where `month` is the 1-based calendar month (`getMonth() + 1`) and `count`
is the `countDocuments` result for orders created today. -/
def genOrderNumberChars (year month day count : Nat) : List Char :=
  "ORD".toList ++ sliceLast2 (decDigits year) ++ padChars (decDigits month) 2 '0'
    ++ padChars (decDigits day) 2 '0' ++ padChars (decDigits (count + 1)) 4 '0'

/-- The generated order number as a string. -/
def genOrderNumber (year month day count : Nat) : String :=
  ⟨genOrderNumberChars year month day count⟩

/-! ## Concrete scenario data (used by witnesses) -/

/-- A product of shop 7 with price 100 and stock 3 (the spec's scenario
product). -/
def appleProduct : Product :=
  { pid := 1, shop := 7, name := "Apple", price := 100, stock := 3,
    isActive := true, isAvailable := true }

/-- A one-product state with no orders. -/
def sampleDB : DB := { products := [appleProduct], orders := [], shops := [] }

/-- A request for 2 units of product 1. -/
def sampleReq : CreateReq := ⟨some [⟨1, 2⟩]⟩

/-- A schema-valid pending order of shop 7 seeded in the collection (the
application itself cannot create orders; see `orderCreate`). -/
def pendingOrder : Order :=
  { oid := 0, orderNumber := "ORD2610110001", customer := 1, shop := 7,
    items := [{ product := 1, quantity := 2, price := 100, total := 200 }],
    subtotal := 200, deliveryCharge := 50, total := 250, status := "pending",
    deliveryType := "home_delivery", rating := none, review := none,
    isRated := false, actualDeliveryTime := none }

/-- A state holding one seeded pending order of shop 7. -/
def statusDB : DB := { products := [], orders := [pendingOrder], shops := [] }

/-- A schema-valid delivered, unrated order of shop 7. -/
def deliveredOrder : Order := { pendingOrder with status := "delivered" }

/-- Shop 7 with an untouched rating aggregate. -/
def sampleShop : Shop := { sid := 7, rating := 0, totalRatings := 0 }

/-- A state holding one seeded delivered order of shop 7 and shop 7. -/
def ratedDB : DB :=
  { products := [], orders := [deliveredOrder], shops := [sampleShop] }

/-- `deliveredOrder` with a rating of 4 (used to exercise the dead
recompute block on a rated collection). -/
def ratedOrder : Order := { deliveredOrder with rating := some 4 }

/-! ## Digit-string lemmas for the order-number hook -/

/-- The fuel of `decDigitsAux` is irrelevant as long as it exceeds the
argument. -/
theorem decDigitsAux_fuel (fuel fuel' n : Nat) (h : n < fuel) (h' : n < fuel') :
    decDigitsAux fuel n = decDigitsAux fuel' n := by
  induction n using Nat.strong_induction_on generalizing fuel fuel' with
  | _ n ih =>
    match fuel, fuel' with
    | f + 1, f' + 1 =>
      simp only [decDigitsAux]
      by_cases h10 : n < 10
      · simp [h10]
      · simp only [if_neg h10]
        have hdiv : n / 10 < n := Nat.div_lt_self (by omega) (by omega)
        rw [ih (n / 10) hdiv f f' (by omega) (by omega)]

/-- The recursion equation of `decDigits`. -/
theorem decDigits_eq (n : Nat) :
    decDigits n = if n < 10 then [digitChar n]
      else decDigits (n / 10) ++ [digitChar (n % 10)] := by
  show decDigitsAux (n + 1) n = _
  by_cases h10 : n < 10
  · simp [decDigitsAux, h10]
  · have hdiv : n / 10 < n := Nat.div_lt_self (by omega) (by omega)
    simp only [decDigitsAux, if_neg h10]
    rw [decDigitsAux_fuel n (n / 10 + 1) (n / 10) (by omega) (by omega)]
    rfl

theorem decDigits_length_pos (n : Nat) : 1 ≤ (decDigits n).length := by
  rw [decDigits_eq]
  by_cases h : n < 10
  · simp [h]
  · simp [h]

theorem decDigits_length_le (k : Nat) :
    ∀ n, n < 10 ^ (k + 1) → (decDigits n).length ≤ k + 1 := by
  induction k with
  | zero =>
    intro n h
    rw [decDigits_eq, if_pos (by simpa using h)]
    simp
  | succ k ih =>
    intro n h
    rw [decDigits_eq]
    by_cases h10 : n < 10
    · rw [if_pos h10]; simp
    · rw [if_neg h10]
      have hdiv : n / 10 < 10 ^ (k + 1) := by
        rw [Nat.div_lt_iff_lt_mul (by norm_num)]
        calc n < 10 ^ (k + 1 + 1) := h
          _ = 10 ^ (k + 1) * 10 := by ring
      have := ih (n / 10) hdiv
      simp only [List.length_append, List.length_cons, List.length_nil]
      omega

theorem decDigits_length_two {n : Nat} (h : 10 ≤ n) : 2 ≤ (decDigits n).length := by
  rw [decDigits_eq, if_neg (by omega)]
  have := decDigits_length_pos (n / 10)
  simp only [List.length_append, List.length_cons, List.length_nil]
  omega

theorem padChars_length (l : List Char) (len : Nat) (c : Char)
    (h : l.length ≤ len) : (padChars l len c).length = len := by
  unfold padChars
  by_cases hle : len ≤ l.length
  · rw [if_pos hle]; omega
  · rw [if_neg hle]
    simp only [List.length_append, List.length_replicate]
    omega

theorem sliceLast2_length (l : List Char) (h : 2 ≤ l.length) :
    (sliceLast2 l).length = 2 := by
  unfold sliceLast2
  simp only [List.length_drop]
  omega

/-! ## Collection lemmas: `findById` after a save -/

/-- Saving a document whose id is the looked-up key makes the lookup
return the saved document. -/
theorem find_store_self {α : Type} (key : α → Nat) (xs : List α) (k : Nat)
    (a b : α) (hfind : xs.find? (fun x => key x == k) = some a) (hb : key b = k) :
    (xs.map (fun q => if key q == key b then b else q)).find? (fun x => key x == k)
      = some b := by
  induction xs with
  | nil => simp at hfind
  | cons h t ih =>
    by_cases hk : key h = k
    · have hhb : (key h == key b) = true := by simp [hk, hb]
      have hpb : ((fun x => key x == k) b) = true := by simp [hb]
      simp only [List.map_cons, if_pos hhb]
      exact List.find?_cons_of_pos (p := fun x => key x == k) _ hpb
    · have hph : ¬ ((fun x => key x == k) h = true) := by simp [hk]
      rw [List.find?_cons_of_neg (p := fun x => key x == k) _ hph] at hfind
      have hhb : ¬ ((key h == key b) = true) := by simp [hb]; exact hk
      simp only [List.map_cons, if_neg hhb]
      rw [List.find?_cons_of_neg (p := fun x => key x == k) _ hph]
      exact ih hfind

/-- Saving a document whose id differs from the looked-up key leaves the
lookup unchanged. -/
theorem find_store_other {α : Type} (key : α → Nat) (xs : List α) (k : Nat)
    (b : α) (hb : key b ≠ k) :
    (xs.map (fun q => if key q == key b then b else q)).find? (fun x => key x == k)
      = xs.find? (fun x => key x == k) := by
  induction xs with
  | nil => simp
  | cons h t ih =>
    by_cases hkb : key h = key b
    · have hph : ¬ ((fun x => key x == k) h = true) := by simp [hkb]; exact hb
      have hpb : ¬ ((fun x => key x == k) b = true) := by simp; exact hb
      simp only [List.map_cons, if_pos (show (key h == key b) = true by simp [hkb])]
      rw [List.find?_cons_of_neg (p := fun x => key x == k) _ hpb,
        List.find?_cons_of_neg (p := fun x => key x == k) _ hph]
      exact ih
    · simp only [List.map_cons, if_neg (show ¬ ((key h == key b) = true) by simp [hkb])]
      by_cases hk : key h = k
      · have hph : ((fun x => key x == k) h) = true := by simp [hk]
        rw [List.find?_cons_of_pos (p := fun x => key x == k) _ hph,
          List.find?_cons_of_pos (p := fun x => key x == k) _ hph]
      · have hph : ¬ ((fun x => key x == k) h = true) := by simp [hk]
        rw [List.find?_cons_of_neg (p := fun x => key x == k) _ hph,
          List.find?_cons_of_neg (p := fun x => key x == k) _ hph]
        exact ih

/-- A found product carries the looked-up id. -/
theorem findProduct_pid {ps : List Product} {pid : Nat} {p : Product}
    (h : findProduct ps pid = some p) : p.pid = pid := by
  have := List.find?_some h
  simpa using this

theorem findProduct_store_self {ps : List Product} {pid : Nat} {p p2 : Product}
    (hfind : findProduct ps pid = some p) (hpid : p2.pid = pid) :
    findProduct (storeProduct ps p2) pid = some p2 :=
  find_store_self Product.pid ps pid p p2 hfind hpid

theorem findProduct_store_other {ps : List Product} {pid : Nat} {p2 : Product}
    (hpid : p2.pid ≠ pid) :
    findProduct (storeProduct ps p2) pid = findProduct ps pid :=
  find_store_other Product.pid ps pid p2 hpid

/-! ## Reservation and release: effect on stocks -/

/-- The total quantity a request demands of product `x`. -/
def reqDemand (items : List ReqItem) (x : Nat) : Nat :=
  ((items.filter (fun i => i.product == x)).map (fun i => i.quantity)).sum

/-- The total quantity an order's line items hold of product `x`. -/
def itemDemand (items : List OrderItem) (x : Nat) : Nat :=
  ((items.filter (fun i => i.product == x)).map (fun i => i.quantity)).sum

theorem reqDemand_cons (i : ReqItem) (rest : List ReqItem) (x : Nat) :
    reqDemand (i :: rest) x
      = (if i.product = x then i.quantity else 0) + reqDemand rest x := by
  by_cases h : i.product = x
  · simp [reqDemand, List.filter_cons, h]
  · simp [reqDemand, List.filter_cons, h]

theorem itemDemand_cons (i : OrderItem) (rest : List OrderItem) (x : Nat) :
    itemDemand (i :: rest) x
      = (if i.product = x then i.quantity else 0) + itemDemand rest x := by
  by_cases h : i.product = x
  · simp [itemDemand, List.filter_cons, h]
  · simp [itemDemand, List.filter_cons, h]

/-- Characterization of a successful `reserve`: the product was found,
active and sufficiently stocked, the returned price is the pre-reservation
price, and the new collection is the save of the decremented product. -/
theorem reserve_ok_spec {ps : List Product} {pid q : Nat} {price : Rat}
    {ps2 : List Product} (h : reserve ps pid q = Except.ok (price, ps2)) :
    ∃ p, findProduct ps pid = some p ∧ p.isActive = true ∧ q ≤ p.stock ∧
      price = p.price ∧
      ps2 = storeProduct ps (saveProduct { p with stock := p.stock - q }) := by
  unfold reserve at h
  split at h
  · exact absurd h (by simp)
  · rename_i product heq
    split at h
    · exact absurd h (by simp)
    · split at h
      · exact absurd h (by simp)
      · rename_i hactive hstock
        obtain ⟨h1, h2⟩ := Prod.mk.inj (Except.ok.inj h)
        exact ⟨product, heq,
          by revert hactive; cases product.isActive <;> simp,
          by omega, h1.symm, h2.symm⟩

/-- Effect of a successful `reserve` on the recorded stocks: the reserved
product's stock drops by exactly `q`, every other product is untouched. -/
theorem reserve_stock {ps : List Product} {pid q : Nat} {price : Rat}
    {ps2 : List Product} (h : reserve ps pid q = Except.ok (price, ps2)) :
    (∃ s, stockAt ps pid = some s ∧ q ≤ s ∧ stockAt ps2 pid = some (s - q)) ∧
    (∀ x, x ≠ pid → stockAt ps2 x = stockAt ps x) := by
  obtain ⟨p, hf, _, hq, _, hps2⟩ := reserve_ok_spec h
  have hpid : p.pid = pid := findProduct_pid hf
  constructor
  · refine ⟨p.stock, by simp [stockAt, hf], hq, ?_⟩
    have : findProduct ps2 pid
        = some (saveProduct { p with stock := p.stock - q }) := by
      rw [hps2]
      exact findProduct_store_self hf (by simp [saveProduct, hpid])
    simp [stockAt, this, saveProduct]
  · intro x hx
    have : findProduct ps2 x = findProduct ps x := by
      rw [hps2]
      exact findProduct_store_other (by simp [saveProduct, hpid]; omega)
    simp [stockAt, this]

/-- Characterization of a successful pass of the `createOrder` item loop:
the accumulated total is the sum of the line totals, each line total is
price × quantity, the line items carry exactly the requested products and
quantities, and each product's stock drops by exactly the quantity the
request demands of it (in particular the demand never exceeds the
available stock). -/
theorem itemLoop_ok_spec :
    ∀ (items : List ReqItem) (ps : List Product) (ois : List OrderItem)
      (t : Rat) (ps2 : List Product),
      itemLoop ps items = (Except.ok (ois, t), ps2) →
      t = (ois.map OrderItem.total).sum ∧
      (∀ oi ∈ ois, oi.total = oi.price * oi.quantity) ∧
      ois.map (fun oi => (oi.product, oi.quantity))
        = items.map (fun i => (i.product, i.quantity)) ∧
      (∀ x, stockAt ps x = none → stockAt ps2 x = none) ∧
      (∀ x s, stockAt ps x = some s →
        reqDemand items x ≤ s ∧ stockAt ps2 x = some (s - reqDemand items x)) := by
  intro items
  induction items with
  | nil =>
    intro ps ois t ps2 h
    simp only [itemLoop, Prod.mk.injEq, Except.ok.injEq] at h
    obtain ⟨⟨hois, ht⟩, hps⟩ := h
    subst hois; subst ht; subst hps
    refine ⟨by simp, by simp, by simp, fun x hx => hx, fun x s hs => ?_⟩
    simp [reqDemand, hs]
  | cons item rest ih =>
    intro ps ois t ps2 h
    simp only [itemLoop] at h
    split at h
    · exact absurd h (by simp)
    · rename_i price ps1 hr
      split at h
      · rename_i ois' t' ps3 hloop
        simp only [Prod.mk.injEq, Except.ok.injEq] at h
        obtain ⟨⟨hois, ht⟩, hps⟩ := h
        subst hps
        obtain ⟨ht', hlt, hpairs, hnone, hsome⟩ := ih ps1 ois' t' ps3 hloop
        obtain ⟨⟨s0, hs0, hq0, hs0'⟩, hother⟩ := reserve_stock hr
        constructor
        · subst ht; subst ht'; subst hois; simp
        refine ⟨?_, ?_, ?_, ?_⟩
        · subst hois
          intro oi hoi
          rcases List.mem_cons.mp hoi with hhead | htail
          · subst hhead; rfl
          · exact hlt oi htail
        · subst hois; simp [hpairs]
        · intro x hx
          have hx1 : stockAt ps1 x = none := by
            by_cases hxp : x = item.product
            · subst hxp; rw [hs0] at hx; exact absurd hx (by simp)
            · rw [hother x hxp]; exact hx
          exact hnone x hx1
        · intro x s hs
          rw [reqDemand_cons]
          by_cases hxp : item.product = x
          · subst hxp
            rw [hs0] at hs
            have hseq : s = s0 := by simpa using hs.symm
            subst hseq
            obtain ⟨hd, hst⟩ := hsome item.product (s - item.quantity) hs0'
            rw [if_pos rfl]
            exact ⟨by omega, by rw [hst]; congr 1; omega⟩
          · have hs1 : stockAt ps1 x = some s := by
              rw [hother x (fun hh => hxp hh.symm)]; exact hs
            obtain ⟨hd, hst⟩ := hsome x s hs1
            rw [if_neg hxp]
            exact ⟨by omega, by rw [hst]; congr 1; omega⟩
      · exact absurd h (by simp)

/-- The item loop leaves products it never touches alone (also on the
error path): a product outside the requested item list keeps its stock. -/
theorem itemLoop_untouched :
    ∀ (items : List ReqItem) (ps : List Product) (x : Nat),
      (∀ i ∈ items, i.product ≠ x) →
      stockAt (itemLoop ps items).2 x = stockAt ps x := by
  intro items
  induction items with
  | nil => intro ps x _; rfl
  | cons item rest ih =>
    intro ps x hx
    simp only [itemLoop]
    split
    · rfl
    · rename_i price ps1 hr
      have hother := (reserve_stock hr).2
      have hx1 : stockAt ps1 x = stockAt ps x :=
        hother x (fun hh => hx item (List.mem_cons_self item rest) hh.symm)
      have htail := ih ps1 x (fun i hi => hx i (List.mem_cons_of_mem item hi))
      split
      · rename_i ois' t' ps3 hloop
        rw [hloop] at htail
        simpa [hx1] using htail
      · rename_i e ps3 hloop
        rw [hloop] at htail
        simpa [hx1] using htail

/-- Effect of the (unreachable) `cancelOrder` restore loop on stocks: each
product gains exactly the quantity the items demand of it; a missing
product stays missing (silent no-op). -/
theorem releaseItems_stock :
    ∀ (items : List OrderItem) (ps : List Product) (x : Nat),
      stockAt (releaseItems ps items) x
        = (stockAt ps x).map (fun s => s + itemDemand items x) := by
  intro items
  induction items with
  | nil =>
    intro ps x
    simp only [releaseItems]
    cases h : stockAt ps x <;> simp [itemDemand, h]
  | cons item rest ih =>
    intro ps x
    simp only [releaseItems]
    cases hf : findProduct ps item.product with
    | none =>
      rw [ih ps x, itemDemand_cons]
      by_cases hxp : item.product = x
      · subst hxp
        have : stockAt ps item.product = none := by simp [stockAt, hf]
        simp [this]
      · rw [if_neg hxp]; simp
    | some p =>
      have hpid : p.pid = item.product := findProduct_pid hf
      rw [ih _ x, itemDemand_cons]
      by_cases hxp : item.product = x
      · subst hxp
        have hx2 : findProduct
            (storeProduct ps (saveProduct { p with stock := p.stock + item.quantity }))
            item.product
            = some (saveProduct { p with stock := p.stock + item.quantity }) :=
          findProduct_store_self hf (by simp [saveProduct, hpid])
        have hx0 : stockAt ps item.product = some p.stock := by simp [stockAt, hf]
        have hlhs : stockAt
            (storeProduct ps (saveProduct { p with stock := p.stock + item.quantity }))
            item.product = some (p.stock + item.quantity) := by
          simp only [stockAt]
          rw [hx2]
          simp [saveProduct]
        rw [hlhs, hx0, if_pos rfl]
        simp only [Option.map_some']
        congr 1
        omega
      · have hx2 : findProduct
            (storeProduct ps (saveProduct { p with stock := p.stock + item.quantity })) x
            = findProduct ps x :=
          findProduct_store_other (by simp [saveProduct, hpid]; exact hxp)
        simp only [stockAt, hx2, if_neg hxp]
        cases findProduct ps x <;> simp

/-- Line items produced by the loop demand of each product exactly what
the request demanded. -/
theorem itemDemand_eq_reqDemand :
    ∀ (ois : List OrderItem) (items : List ReqItem),
      ois.map (fun oi => (oi.product, oi.quantity))
        = items.map (fun i => (i.product, i.quantity)) →
      ∀ x, itemDemand ois x = reqDemand items x := by
  intro ois
  induction ois with
  | nil =>
    intro items h x
    cases items with
    | nil => rfl
    | cons i irest => simp at h
  | cons oi rest ih =>
    intro items h x
    cases items with
    | nil => simp at h
    | cons i irest =>
      simp only [List.map_cons, List.cons.injEq, Prod.mk.injEq] at h
      obtain ⟨⟨hp, hq⟩, htail⟩ := h
      rw [itemDemand_cons, reqDemand_cons, ih irest htail x, hp, hq]

/-- `Order.create` rejects every payload this controller builds: the
candidate document never carries the required `customer` path (the
controller supplies `user`, which strict mode drops), so validation
fails. -/
theorem orderCreate_fails (oid : Nat) (p : CreatePayload) :
    orderCreate oid p = Except.error "ValidationError" := by
  unfold orderCreate
  rw [if_neg]
  simp [validateRequired, candidateOfPayload]

/-- `rateOrder` never succeeds and never changes the state: every branch
is an `apiError` or a throw that returns the collections untouched. -/
theorem rateOrder_state (db : DB) (userId oid rating : Nat) (review : String) :
    (rateOrder db userId oid rating review).2 = db ∧
    isSuccess (rateOrder db userId oid rating review).1 = false := by
  unfold rateOrder
  split
  · exact ⟨rfl, rfl⟩
  · split
    · exact ⟨rfl, rfl⟩
    · exact ⟨rfl, rfl⟩

/-! ## The claims -/

/-- C1 (code_bug evidence).  No order creation ever succeeds: the document
the controller passes to `Order.create` fails the staged schema's
required-path validation (missing `customer`/`subtotal`/`deliveryType`,
`shop` undefined, `orderNumber` generated only after validation), so no
order is ever persisted.  The arithmetic the claim states is the
controller's intent: the payload it builds from a successful loop pass
does satisfy `total = subtotal + deliveryFee` with the fee 0 iff the
subtotal exceeds 500 and each line total = price × quantity — but
`Order.create` throws on that very payload. -/
theorem C1_create_never_persists (db : DB) (userId : Nat) (req : CreateReq) :
    (isSuccess (createOrder db userId req).1 = false ∧
     (createOrder db userId req).2.orders = db.orders) ∧
    (∀ items ois subtotal ps2, req.items = some items →
      itemLoop db.products items = (Except.ok (ois, subtotal), ps2) →
      (buildCreatePayload userId ois subtotal).total
          = (ois.map OrderItem.total).sum
            + (buildCreatePayload userId ois subtotal).deliveryFee ∧
      ((buildCreatePayload userId ois subtotal).deliveryFee = 0
          ↔ (ois.map OrderItem.total).sum > 500) ∧
      ((ois.map OrderItem.total).sum ≤ 500
          → (buildCreatePayload userId ois subtotal).deliveryFee = 50) ∧
      (∀ oi ∈ ois, oi.total = oi.price * (oi.quantity : Rat)) ∧
      (∀ n, orderCreate n (buildCreatePayload userId ois subtotal)
          = Except.error "ValidationError")) := by
  constructor
  · obtain ⟨itemsOpt⟩ := req
    cases itemsOpt with
    | none => exact ⟨rfl, rfl⟩
    | some items =>
      by_cases hlen : items.length = 0
      · simp [createOrder, hlen, isSuccess]
      · rcases hloop : itemLoop db.products items with ⟨res, ps2⟩
        cases res with
        | error e =>
          simp [createOrder, hlen, hloop, isSuccess]
        | ok payload =>
          obtain ⟨ois, subtotal⟩ := payload
          simp [createOrder, hlen, hloop, orderCreate_fails, isSuccess]
  · intro items ois subtotal ps2 hitems hloop
    obtain ⟨hsum, hlt, hpairs, _, _⟩ :=
      itemLoop_ok_spec items db.products ois subtotal ps2 hloop
    have hsub : (ois.map OrderItem.total).sum = subtotal := hsum.symm
    refine ⟨?_, ?_, ?_, hlt, fun n => orderCreate_fails n _⟩
    · rw [hsub]; rfl
    · rw [hsub]
      show (if subtotal > 500 then (0 : Rat) else 50) = 0 ↔ subtotal > 500
      by_cases hgt : subtotal > 500
      · rw [if_pos hgt]; simp [hgt]
      · rw [if_neg hgt]
        constructor
        · intro h50; norm_num at h50
        · intro hgt'; exact absurd hgt' hgt
    · intro hle
      rw [hsub] at hle
      show (if subtotal > 500 then (0 : Rat) else 50) = 50
      rw [if_neg (not_lt.mpr hle)]

/-- Witness for C1 at the spec's scenario: the create attempt throws
`ValidationError` (no order persisted, stock already decremented), while
the attempted payload's arithmetic matches the claim (subtotal 200,
fee 50, total 250). -/
theorem C1_create_never_persists_witness :
    (isSuccess (createOrder sampleDB 1 sampleReq).1 = false ∧
     (createOrder sampleDB 1 sampleReq).2.orders = sampleDB.orders) ∧
    (sampleReq.items = some [⟨1, 2⟩] ∧
     itemLoop sampleDB.products [⟨1, 2⟩]
        = (Except.ok ([{ product := 1, quantity := 2, price := 100, total := 200 }], 200),
           [{ appleProduct with stock := 1, isAvailable := true }])) ∧
    (buildCreatePayload 1 [{ product := 1, quantity := 2, price := 100, total := 200 }] 200).total
        = ([{ product := 1, quantity := 2, price := 100, total := 200 }].map OrderItem.total).sum
          + (buildCreatePayload 1 [{ product := 1, quantity := 2, price := 100, total := 200 }] 200).deliveryFee ∧
    (∀ n, orderCreate n (buildCreatePayload 1 [{ product := 1, quantity := 2, price := 100, total := 200 }] 200)
        = Except.error "ValidationError") := by
  have hloop : itemLoop sampleDB.products [⟨1, 2⟩]
      = (Except.ok ([{ product := 1, quantity := 2, price := 100, total := 200 }], 200),
         [{ appleProduct with stock := 1, isAvailable := true }]) := by
    norm_num [itemLoop, reserve, findProduct, storeProduct, saveProduct,
      sampleDB, appleProduct, List.find?]
  have hmain := C1_create_never_persists sampleDB 1 sampleReq
  have hpart := hmain.2 [⟨1, 2⟩]
    [{ product := 1, quantity := 2, price := 100, total := 200 }] 200
    [{ appleProduct with stock := 1, isAvailable := true }] rfl hloop
  exact ⟨hmain.1, ⟨rfl, hloop⟩, hpart.1, hpart.2.2.2.2⟩

/-- C2. The reservation step of `createOrder`: `NotFound` (404) when the
product is absent, unavailability (400) when it is inactive,
insufficient-stock (400) when `stock < quantity`; otherwise the stock
drops by exactly `q`, the pre-reservation unit price is returned, and the
saved product's availability flag equals `stock_after > 0`. -/
theorem C2_reserve_contract (ps : List Product) (pid q : Nat) :
    (findProduct ps pid = none →
      reserve ps pid q = Except.error ⟨s!"Product {pid} not found", 404⟩) ∧
    (∀ p n, findProduct ps pid = some p → p.name = n →
      (p.isActive = false →
        reserve ps pid q = Except.error ⟨s!"Product {n} is not available", 400⟩) ∧
      (p.isActive = true → p.stock < q →
        reserve ps pid q = Except.error ⟨s!"Insufficient stock for {n}", 400⟩) ∧
      (p.isActive = true → q ≤ p.stock →
        ∃ ps2 p2, reserve ps pid q = Except.ok (p.price, ps2) ∧
          findProduct ps2 pid = some p2 ∧ p2.stock = p.stock - q ∧
          (p2.isAvailable = true ↔ 0 < p2.stock))) := by
  constructor
  · intro hnone
    simp only [reserve, hnone]
  · intro p n hfind hname
    subst hname
    refine ⟨?_, ?_, ?_⟩
    · intro hinact
      simp only [reserve, hfind, if_pos hinact]
    · intro hactive hstock
      simp only [reserve, hfind]
      rw [if_neg (show ¬ p.isActive = false by simp [hactive]), if_pos hstock]
    · intro hactive hstock
      refine ⟨storeProduct ps (saveProduct { p with stock := p.stock - q }),
        saveProduct { p with stock := p.stock - q }, ?_, ?_, ?_, ?_⟩
      · simp only [reserve, hfind]
        rw [if_neg (show ¬ p.isActive = false by simp [hactive]),
          if_neg (show ¬ p.stock < q by omega)]
      · exact findProduct_store_self hfind
          (by simp [saveProduct]; exact findProduct_pid hfind)
      · simp [saveProduct]
      · simp [saveProduct]

/-- Witness for C2: reserving 2 of 3 units leaves stock 1 and keeps the
product available. -/
theorem C2_reserve_contract_witness :
    findProduct sampleDB.products 1 = some appleProduct ∧
    ∃ ps2 p2, reserve sampleDB.products 1 2 = Except.ok (appleProduct.price, ps2) ∧
      findProduct ps2 1 = some p2 ∧ p2.stock = appleProduct.stock - 2 ∧
      (p2.isAvailable = true ↔ 0 < p2.stock) :=
  ⟨by decide, ((C2_reserve_contract sampleDB.products 1 2).2 appleProduct "Apple"
    (by decide) (by decide)).2.2 (by decide) (by decide)⟩

/-- C3 (code_bug evidence).  For every existing order, `cancelOrder`
throws a `TypeError` at the ownership guard (`order.user.toString()`;
`user` is not a schema path — the field is `customer`) and leaves the
whole state unchanged: no cancellation and no stock release ever execute.
The restore property the claim states is the intent and holds of the
unreachable restore loop: after a successful reservation pass, releasing
the produced line items increments each product's stock by its demanded
quantity and restores every product's stock to its pre-reservation
value. -/
theorem C3_cancel_crashes (db : DB) (userId oid : Nat) :
    ((findOrder db.orders oid = none →
      cancelOrder db userId oid = (Outcome.apiError ⟨"Order not found", 404⟩, db)) ∧
     (∀ order, findOrder db.orders oid = some order →
      cancelOrder db userId oid = (Outcome.thrown undefinedToStringMsg, db))) ∧
    (∀ (ps : List Product) (items : List ReqItem) (ois : List OrderItem)
        (t : Rat) (ps2 : List Product),
      itemLoop ps items = (Except.ok (ois, t), ps2) →
      (∀ x, stockAt (releaseItems ps2 ois) x
          = (stockAt ps2 x).map (fun s => s + itemDemand ois x)) ∧
      (∀ x, stockAt (releaseItems ps2 ois) x = stockAt ps x)) := by
  constructor
  · constructor
    · intro hnone
      simp only [cancelOrder, hnone]
    · intro order hfind
      simp only [cancelOrder, hfind]
  · intro ps items ois t ps2 hloop
    obtain ⟨_, _, hpairs, hnone, hsome⟩ :=
      itemLoop_ok_spec items ps ois t ps2 hloop
    have hdem := itemDemand_eq_reqDemand ois items hpairs
    refine ⟨releaseItems_stock ois ps2, ?_⟩
    intro x
    have hrel := releaseItems_stock ois ps2 x
    cases hdb : stockAt ps x with
    | none =>
      have h2 : stockAt ps2 x = none := hnone x hdb
      rw [hrel, h2]
      rfl
    | some s =>
      obtain ⟨hd, h2⟩ := hsome x s hdb
      rw [hrel, h2, hdem]
      simp only [Option.map_some']
      congr 1
      omega

/-- Witness for C3: cancelling the seeded pending order throws with the
state untouched; the restore-loop intent instance at the spec's scenario
(reserve 2 of 3, release restores 3). -/
theorem C3_cancel_crashes_witness :
    (findOrder statusDB.orders 0 = some pendingOrder ∧
     cancelOrder statusDB 1 0 = (Outcome.thrown undefinedToStringMsg, statusDB)) ∧
    (itemLoop sampleDB.products [⟨1, 2⟩]
        = (Except.ok ([{ product := 1, quantity := 2, price := 100, total := 200 }], 200),
           [{ appleProduct with stock := 1, isAvailable := true }]) ∧
     ∀ x, stockAt (releaseItems [{ appleProduct with stock := 1, isAvailable := true }]
            [{ product := 1, quantity := 2, price := 100, total := 200 }]) x
        = stockAt sampleDB.products x) := by
  have hfind : findOrder statusDB.orders 0 = some pendingOrder := by decide
  have hloop : itemLoop sampleDB.products [⟨1, 2⟩]
      = (Except.ok ([{ product := 1, quantity := 2, price := 100, total := 200 }], 200),
         [{ appleProduct with stock := 1, isAvailable := true }]) := by
    norm_num [itemLoop, reserve, findProduct, storeProduct, saveProduct,
      sampleDB, appleProduct, List.find?]
  have hmain := C3_cancel_crashes statusDB 1 0
  have hintent := (C3_cancel_crashes sampleDB 1 0).2 sampleDB.products [⟨1, 2⟩]
    [{ product := 1, quantity := 2, price := 100, total := 200 }] 200
    [{ appleProduct with stock := 1, isAvailable := true }] hloop
  exact ⟨⟨hfind, hmain.1.2 pendingOrder hfind⟩, hloop, hintent.2⟩

/-- C4 (code_bug evidence).  Only the rating-bounds and `NotFound`
branches of `rateOrder` are reachable: for every existing order the
ownership guard evaluates `order.user.toString()` (`user` is not a schema
path) and throws a `TypeError`, so the `Forbidden`/`InvalidTransition`/
`AlreadyRated` responses the claim names are never produced and `rateOrder`
never succeeds at all (in particular never twice). -/
theorem C4_rate_crashes (db : DB) (userId oid rating : Nat) (review : String) :
    ((rating < 1 ∨ rating > 5) →
      rateOrder db userId oid rating review
        = (Outcome.apiError ⟨"Rating must be between 1 and 5", 400⟩, db)) ∧
    (¬ (rating < 1 ∨ rating > 5) → findOrder db.orders oid = none →
      rateOrder db userId oid rating review
        = (Outcome.apiError ⟨"Order not found", 404⟩, db)) ∧
    (¬ (rating < 1 ∨ rating > 5) → ∀ order, findOrder db.orders oid = some order →
      rateOrder db userId oid rating review
        = (Outcome.thrown undefinedToStringMsg, db)) ∧
    isSuccess (rateOrder db userId oid rating review).1 = false := by
  refine ⟨?_, ?_, ?_, ?_⟩
  · intro hb
    simp only [rateOrder, if_pos hb]
  · intro hb hnone
    simp only [rateOrder, if_neg hb, hnone]
  · intro hb order hfind
    simp only [rateOrder, if_neg hb, hfind]
  · exact (rateOrder_state db userId oid rating review).2

/-- Witness for C4: rating the seeded delivered order (valid rating 4, by
its customer) throws the `TypeError` with the state unchanged — not any of
the claimed guard errors. -/
theorem C4_rate_crashes_witness :
    (¬ ((4 : Nat) < 1 ∨ (4 : Nat) > 5) ∧
     findOrder ratedDB.orders 0 = some deliveredOrder) ∧
    rateOrder ratedDB 1 0 4 "great" = (Outcome.thrown undefinedToStringMsg, ratedDB) :=
  ⟨⟨by decide, by decide⟩,
    (C4_rate_crashes ratedDB 1 0 4 "great").2.2.1 (by decide) deliveredOrder
      (by decide)⟩

/-- C5. When the first item of a multi-item order reserves successfully
and the loop then fails on a later item, `createOrder` reports that error
with the first item's stock decrement still applied — no rollback or
compensation happens (the final state is exactly the loop's error state). -/
theorem C5_no_rollback (db : DB) (uid : Nat) (i1 : ReqItem) (rest : List ReqItem)
    {price : Rat} {ps1 : List Product} {e : ErrorResponse} {ps2 : List Product}
    (h1 : reserve db.products i1.product i1.quantity = Except.ok (price, ps1))
    (h2 : itemLoop ps1 rest = (Except.error e, ps2))
    (h3 : ∀ i ∈ rest, i.product ≠ i1.product) :
    createOrder db uid ⟨some (i1 :: rest)⟩
      = (Outcome.apiError e, { db with products := ps2 }) ∧
    ∃ s, stockAt db.products i1.product = some s ∧ i1.quantity ≤ s ∧
      stockAt ps2 i1.product = some (s - i1.quantity) := by
  constructor
  · simp only [createOrder]
    rw [if_neg (show ¬ (i1 :: rest).length = 0 by simp)]
    simp only [itemLoop, h1, h2]
  · obtain ⟨⟨s, hs, hq, hs1⟩, _⟩ := reserve_stock h1
    refine ⟨s, hs, hq, ?_⟩
    have hu := itemLoop_untouched rest ps1 i1.product h3
    rw [h2] at hu
    have hu2 : stockAt ps2 i1.product = stockAt ps1 i1.product := hu
    rw [hu2]
    exact hs1

/-- Witness for C5: item 1 reserves 2 of 3 units, item 2 refers to a
missing product; the request fails 404 but product 1 keeps stock 1. -/
theorem C5_no_rollback_witness :
    reserve sampleDB.products 1 2
        = Except.ok (100, [{ appleProduct with stock := 1, isAvailable := true }]) ∧
    itemLoop [{ appleProduct with stock := 1, isAvailable := true }] [⟨2, 1⟩]
        = (Except.error ⟨"Product 2 not found", 404⟩,
           [{ appleProduct with stock := 1, isAvailable := true }]) ∧
    createOrder sampleDB 1 ⟨some [⟨1, 2⟩, ⟨2, 1⟩]⟩
        = (Outcome.apiError ⟨"Product 2 not found", 404⟩,
           { sampleDB with
              products := [{ appleProduct with stock := 1, isAvailable := true }] }) ∧
    ∃ s, stockAt sampleDB.products 1 = some s ∧ 2 ≤ s ∧
      stockAt [{ appleProduct with stock := 1, isAvailable := true }] 1
        = some (s - 2) := by
  have hres : reserve sampleDB.products 1 2
      = Except.ok (100, [{ appleProduct with stock := 1, isAvailable := true }]) := by
    norm_num [reserve, findProduct, storeProduct, saveProduct, sampleDB,
      appleProduct, List.find?]
  have hloop : itemLoop [{ appleProduct with stock := 1, isAvailable := true }] [⟨2, 1⟩]
      = (Except.error ⟨"Product 2 not found", 404⟩,
         [{ appleProduct with stock := 1, isAvailable := true }]) := by
    decide
  have hmain := C5_no_rollback sampleDB 1 ⟨1, 2⟩ [⟨2, 1⟩] hres hloop (by decide)
  exact ⟨hres, hloop, hmain.1, hmain.2⟩

/-- C6 (code_bug evidence).  `updateOrderStatus` fails 404 for a missing
order and 401 when the acting shop is not the order's shop (both real);
but for every authorized update it throws a `TypeError` at
`order.statusHistory.push` (`statusHistory` is not a schema path) and
persists nothing — no status change, no history entry, no
`actualDeliveryTime`.  The `actualDeliveryTime` rule the claim states
lives in the schema method `orderUpdateStatus`, which sets it exactly when
the new status is `delivered` — and which no controller calls. -/
theorem C6_update_status_crashes (db : DB) (actor : Actor) (oid : Nat)
    (status : String) :
    (findOrder db.orders oid = none →
      updateOrderStatus db actor oid status
        = (Outcome.apiError ⟨"Order not found", 404⟩, db)) ∧
    (∀ order, findOrder db.orders oid = some order →
      (order.shop ≠ actor.shop →
        updateOrderStatus db actor oid status
          = (Outcome.apiError ⟨"Not authorized to update this order", 401⟩, db)) ∧
      (order.shop = actor.shop →
        updateOrderStatus db actor oid status
          = (Outcome.thrown undefinedPushMsg, db))) ∧
    (∀ (o : Order) (ns : String) (t : Nat),
      (orderUpdateStatus o ns t).status = ns ∧
      (ns = "delivered" → (orderUpdateStatus o ns t).actualDeliveryTime = some t) ∧
      (ns ≠ "delivered" →
        (orderUpdateStatus o ns t).actualDeliveryTime = o.actualDeliveryTime)) := by
  refine ⟨?_, ?_, ?_⟩
  · intro hnone
    simp only [updateOrderStatus, hnone]
  · intro order hfind
    constructor
    · intro hsh
      simp only [updateOrderStatus, hfind, if_pos hsh]
    · intro hsh
      simp only [updateOrderStatus, hfind]
      rw [if_neg (show ¬ order.shop ≠ actor.shop by simp [hsh])]
  · intro o ns t
    refine ⟨?_, ?_, ?_⟩
    · by_cases hns : ns = "delivered" <;> simp [orderUpdateStatus, hns]
    · intro hns; simp [orderUpdateStatus, hns]
    · intro hns; simp [orderUpdateStatus, hns]

/-- Witness for C6: the shop-7 owner moving the seeded pending order to
`delivered` gets the `TypeError` (nothing saved), while the uncalled
schema method would set `actualDeliveryTime`. -/
theorem C6_update_status_crashes_witness :
    (findOrder statusDB.orders 0 = some pendingOrder ∧
     pendingOrder.shop = 7 ∧
     updateOrderStatus statusDB ⟨2, 7⟩ 0 "delivered"
        = (Outcome.thrown undefinedPushMsg, statusDB)) ∧
    (orderUpdateStatus pendingOrder "delivered" 5).actualDeliveryTime = some 5 := by
  have hfind : findOrder statusDB.orders 0 = some pendingOrder := by decide
  have hmain := C6_update_status_crashes statusDB ⟨2, 7⟩ 0 "delivered"
  exact ⟨⟨hfind, rfl, (hmain.2.1 pendingOrder hfind).2 rfl⟩,
    (hmain.2.2 pendingOrder "delivered" 5).2.1 rfl⟩

/-- C7 (code_bug evidence).  The `shop` value the controller passes to
`Order.create` is `undefined` (`none`) for every request — not the shop of
the first item's product: the source reads `.shop` off the raw request id
`orderItems[0].product` rather than off the fetched product document (and
the schema's required `shop` path then rejects the document at save
time). -/
theorem C7_shop_undefined (userId : Nat) (orderItems : List OrderItem)
    (subtotal : Rat) :
    (buildCreatePayload userId orderItems subtotal).shop = none := rfl

/-- C8 (code_bug evidence).  The shop-rating recompute is dead code:
`rateOrder` never succeeds and never touches the state at all (it throws
at the ownership guard for every existing order), so the shop's stored
rating is never overwritten by the order-rating path.  The claim matches
the dead block's computation, which — were it reachable — would overwrite
the stored rating with the arithmetic mean of the `rating` fields of all
rated orders of that shop (a full recompute, not `updateShopRating`'s
incremental weighted update). -/
theorem C8_recompute_unreachable (db : DB) (userId oid rating : Nat)
    (review : String) :
    ((rateOrder db userId oid rating review).2 = db ∧
     isSuccess (rateOrder db userId oid rating review).1 = false) ∧
    (∀ (db2 : DB) (orders2 : List Order) (sid : Nat) (shop : Shop),
      findShop db2.shops sid = some shop →
      ∃ shop2, (updateShopAfterRate db2 orders2 sid).shops = storeShop db2.shops shop2 ∧
        shop2.rating = meanOrderRating (ratedOrdersOf orders2 sid) ∧
        shop2.totalRatings = shop.totalRatings) := by
  constructor
  · exact rateOrder_state db userId oid rating review
  · intro db2 orders2 sid shop hfs
    refine ⟨{ shop with rating := meanOrderRating (ratedOrdersOf orders2 sid) },
      ?_, rfl, rfl⟩
    simp only [updateShopAfterRate, hfs]

/-- Witness for C8: rating the seeded delivered order leaves the whole
state (shops included) untouched; the dead recompute block applied to a
one-rated-order collection would store the mean. -/
theorem C8_recompute_unreachable_witness :
    ((rateOrder ratedDB 1 0 4 "nice").2 = ratedDB ∧
     isSuccess (rateOrder ratedDB 1 0 4 "nice").1 = false) ∧
    (findShop ratedDB.shops 7 = some sampleShop ∧
     ∃ shop2, (updateShopAfterRate ratedDB [ratedOrder] 7).shops
          = storeShop ratedDB.shops shop2 ∧
       shop2.rating = meanOrderRating (ratedOrdersOf [ratedOrder] 7) ∧
       shop2.totalRatings = sampleShop.totalRatings) := by
  have hmain := C8_recompute_unreachable ratedDB 1 0 4 "nice"
  have hfs : findShop ratedDB.shops 7 = some sampleShop := by decide
  exact ⟨hmain.1, hfs, hmain.2 ratedDB [ratedOrder] 7 sampleShop hfs⟩

/-- C9, amended. The generated order number is `ORD` + the last two digits
of the year + 2-digit month + 2-digit day + `padStart(count+1, 4)`; the
sequence is 4 digits exactly when `count + 1 ≤ 9999` (beyond that,
`padStart` does not truncate and the sequence grows longer), and the order
following two prior same-day orders carries sequence `0003`. -/
theorem C9_order_number (year month day count : Nat) (hy : 10 ≤ year)
    (hm : month ≤ 99) (hd : day ≤ 99) (hc : count + 1 ≤ 9999) :
    ∃ yy mm dd seq : List Char,
      genOrderNumberChars year month day count
        = "ORD".toList ++ yy ++ mm ++ dd ++ seq ∧
      yy.length = 2 ∧ mm.length = 2 ∧ dd.length = 2 ∧ seq.length = 4 ∧
      seq = padChars (decDigits (count + 1)) 4 '0' ∧
      genOrderNumberChars year month day 2
        = "ORD".toList ++ yy ++ mm ++ dd ++ ['0', '0', '0', '3'] := by
  refine ⟨sliceLast2 (decDigits year), padChars (decDigits month) 2 '0',
    padChars (decDigits day) 2 '0', padChars (decDigits (count + 1)) 4 '0',
    rfl, ?_, ?_, ?_, ?_, rfl, ?_⟩
  · exact sliceLast2_length _ (decDigits_length_two hy)
  · exact padChars_length _ _ _ (decDigits_length_le 1 month (by norm_num; omega))
  · exact padChars_length _ _ _ (decDigits_length_le 1 day (by norm_num; omega))
  · exact padChars_length _ _ _
      (decDigits_length_le 3 (count + 1) (by norm_num; omega))
  · have h03 : padChars (decDigits (2 + 1)) 4 '0' = ['0', '0', '0', '3'] := by
      decide
    simp only [genOrderNumberChars, h03]

/-- Counterexample for C9 as stated: on a day that already has 9999
orders, the generated number cannot be decomposed as `ORD` + 2-digit year
+ 2-digit month + 2-digit day + a 4-digit sequence — `padStart` does not
truncate, so the sequence part `10000` has five digits. -/
theorem C9_order_number_counterexample :
    ¬ ∃ yy mm dd seq : List Char, yy.length = 2 ∧ mm.length = 2 ∧
      dd.length = 2 ∧ seq.length = 4 ∧
      genOrderNumberChars 2026 10 11 9999
        = "ORD".toList ++ yy ++ mm ++ dd ++ seq := by
  rintro ⟨yy, mm, dd, seq, h2a, h2b, h2c, h4, heq⟩
  have hlen : (genOrderNumberChars 2026 10 11 9999).length = 14 := by decide
  rw [heq] at hlen
  have hORD : ("ORD".toList).length = 3 := by decide
  simp only [List.length_append] at hlen
  omega

/-- Witness for C9 (amended) on 2026-10-11 with two prior orders. -/
theorem C9_order_number_witness :
    ((10:Nat) ≤ 2026 ∧ (10:Nat) ≤ 99 ∧ (11:Nat) ≤ 99 ∧ (2:Nat) + 1 ≤ 9999) ∧
    ∃ yy mm dd seq : List Char,
      genOrderNumberChars 2026 10 11 2
        = "ORD".toList ++ yy ++ mm ++ dd ++ seq ∧
      yy.length = 2 ∧ mm.length = 2 ∧ dd.length = 2 ∧ seq.length = 4 ∧
      seq = padChars (decDigits (2 + 1)) 4 '0' ∧
      genOrderNumberChars 2026 10 11 2
        = "ORD".toList ++ yy ++ mm ++ dd ++ ['0', '0', '0', '3'] :=
  ⟨⟨by decide, by decide, by decide, by decide⟩,
    C9_order_number 2026 10 11 2 (by decide) (by decide) (by decide) (by decide)⟩

/-- C10. A missing or empty `items` list fails with HTTP 400 "Please add
items to your order" and leaves the whole state (product stocks and the
order collection) unchanged. -/
theorem C10_empty_items (db : DB) (uid : Nat) (req : CreateReq)
    (h : req.items = none ∨ req.items = some []) :
    createOrder db uid req
      = (Outcome.apiError ⟨"Please add items to your order", 400⟩, db) := by
  rcases h with h | h <;> simp [createOrder, h]

/-- Witness for C10 at a missing `items` field. -/
theorem C10_empty_items_witness :
    ((⟨none⟩ : CreateReq).items = none ∨ (⟨none⟩ : CreateReq).items = some []) ∧
    createOrder sampleDB 1 ⟨none⟩
      = (Outcome.apiError ⟨"Please add items to your order", 400⟩, sampleDB) :=
  ⟨Or.inl rfl, C10_empty_items sampleDB 1 ⟨none⟩ (Or.inl rfl)⟩

end TownKart
